import Mathlib

/-!
Verification of the POAP2RSS feed-assembly pipeline
(`src/poap2rss_lambda.py`) against its specification.

The embedding models the pure core of the Lambda: Python date parsing
(`datetime.fromisoformat` on the shapes this program receives), the three
date-normalization ladders in the source, the four feed-item builders, the
inactivity check, the two feed generators, and the CDATA re-wrapping pass
of `_format_xml`.  Wall-clock reads (`time.time()` /
`datetime.now(timezone.utc)`) are modelled by a sample stream
`c : Nat -> Int` together with a sample counter threaded through the
pipeline: every call to the clock in the Python source consumes the next
sample, in source order.  Upstream fetches are inputs of type `Except`.
-/

namespace POAP2RSS

/-! ### Python string helpers -/

/-- Python truthiness of an optional string: a missing key and an empty
string are both falsy (models `if d.get(k):`). -/
def pyTruthy : Option String → Option String
  | some s => if s = "" then none else some s
  | none => none

/-- Elided address display: models `f"{address[:6]}...{address[-4:]}"`. -/
def pyElide (s : String) : String :=
  String.mk (s.data.take 6) ++ "..." ++ String.mk (s.data.drop (s.data.length - 4))

/-- Little-endian decimal digit list of a natural number, fuel-indexed so
that it reduces by `rfl`. -/
def natDigitsRev : Nat → Nat → List Nat
  | 0, _ => []
  | f + 1, n => if n < 10 then [n] else n % 10 :: natDigitsRev f (n / 10)

/-- The character of a decimal digit. -/
def digitCh : Nat → Char
  | 0 => '0' | 1 => '1' | 2 => '2' | 3 => '3' | 4 => '4'
  | 5 => '5' | 6 => '6' | 7 => '7' | 8 => '8' | _ => '9'

/-- Numeric value of a decimal digit character. -/
def chVal : Char → Nat
  | '0' => 0 | '1' => 1 | '2' => 2 | '3' => 3 | '4' => 4
  | '5' => 5 | '6' => 6 | '7' => 7 | '8' => 8 | _ => 9

/-- Python `str` on a natural number. -/
def natStr (n : Nat) : String :=
  String.mk (((natDigitsRev (n + 1) n).reverse).map digitCh)

/-- Python `str` on an int; models f-string interpolation of ints. -/
def intStr (i : Int) : String :=
  if i < 0 then "-" ++ natStr i.natAbs else natStr i.natAbs

/-- Value of a little-endian digit list. -/
def ofDigitsRev : List Nat → Nat
  | [] => 0
  | d :: ds => d + 10 * ofDigitsRev ds

theorem ofDigitsRev_natDigitsRev (f : Nat) : ∀ n : Nat, n < f →
    ofDigitsRev (natDigitsRev f n) = n := by
  induction f with
  | zero => intro n h; omega
  | succ f ih =>
    intro n h
    unfold natDigitsRev
    by_cases h10 : n < 10
    · simp [h10, ofDigitsRev]
    · have hn : n / 10 < f := by omega
      simp only [h10, if_false, ofDigitsRev, ih _ hn]
      omega

theorem natDigitsRev_lt (f : Nat) : ∀ n : Nat, ∀ d ∈ natDigitsRev f n, d < 10 := by
  induction f with
  | zero => intro n d hd; simp [natDigitsRev] at hd
  | succ f ih =>
    intro n d hd
    unfold natDigitsRev at hd
    by_cases h10 : n < 10
    · simp [h10] at hd; omega
    · simp only [h10, if_false, List.mem_cons] at hd
      rcases hd with h | h
      · omega
      · exact ih _ _ h

theorem chVal_digitCh (d : Nat) (h : d < 10) : chVal (digitCh d) = d := by
  interval_cases d <;> rfl

/-- Decimal decoding, the left inverse of `natStr`. -/
def decodeNatStr (s : String) : Nat := ofDigitsRev ((s.data.map chVal).reverse)

theorem decodeNatStr_natStr (n : Nat) : decodeNatStr (natStr n) = n := by
  have hmap : (natDigitsRev (n + 1) n).map (chVal ∘ digitCh) = natDigitsRev (n + 1) n := by
    have hlt := natDigitsRev_lt (n + 1) n
    calc (natDigitsRev (n + 1) n).map (chVal ∘ digitCh)
        = (natDigitsRev (n + 1) n).map id := by
          apply List.map_congr_left
          intro a ha
          simpa using chVal_digitCh a (hlt a ha)
      _ = natDigitsRev (n + 1) n := List.map_id _
  unfold decodeNatStr natStr
  show ofDigitsRev (((((natDigitsRev (n + 1) n).reverse).map digitCh).map chVal).reverse) = n
  rw [List.map_map, List.map_reverse, List.reverse_reverse, hmap]
  exact ofDigitsRev_natDigitsRev _ _ (Nat.lt_succ_self n)

theorem natStr_inj {a b : Nat} (h : natStr a = natStr b) : a = b := by
  have := congrArg decodeNatStr h
  rwa [decodeNatStr_natStr, decodeNatStr_natStr] at this

theorem digitCh_ne_dash (d : Nat) : digitCh d ≠ '-' := by
  unfold digitCh
  split <;> decide

theorem natStr_no_dash (n : Nat) : ∀ c ∈ (natStr n).data, c ≠ '-' := by
  intro c hc
  have hc' : c ∈ ((natDigitsRev (n + 1) n).reverse).map digitCh := hc
  rcases List.mem_map.mp hc' with ⟨d, _, rfl⟩
  exact digitCh_ne_dash d

theorem natStr_ne_nil (n : Nat) : (natStr n).data ≠ [] := by
  have : natDigitsRev (n + 1) n ≠ [] := by
    unfold natDigitsRev
    split <;> simp
  intro hcon
  have hdata : (((natDigitsRev (n + 1) n).reverse).map digitCh) = [] := hcon
  simp at hdata
  exact this hdata

theorem intStr_inj {a b : Int} (h : intStr a = intStr b) : a = b := by
  unfold intStr at h
  have hdata := congrArg String.data h
  by_cases ha : a < 0 <;> by_cases hb : b < 0 <;> simp [ha, hb] at h hdata
  · -- both negative
    have habs : a.natAbs = b.natAbs := natStr_inj (by
      have h1 : natStr a.natAbs = String.mk (natStr a.natAbs).data := rfl
      have h2 : natStr b.natAbs = String.mk (natStr b.natAbs).data := rfl
      rw [h1, h2, hdata])
    omega
  · -- a < 0, 0 ≤ b : impossible, natStr never starts with a dash
    exfalso
    have hmem : '-' ∈ (natStr b.natAbs).data := by
      rw [← hdata]
      simp
    exact natStr_no_dash _ '-' hmem rfl
  · exfalso
    have hmem : '-' ∈ (natStr a.natAbs).data := by
      rw [hdata]
      simp
    exact natStr_no_dash _ '-' hmem rfl
  · have habs : a.natAbs = b.natAbs := natStr_inj h
    omega

/-! ### Proleptic-Gregorian calendar (Python `datetime` arithmetic) -/

/-- Gregorian leap-year predicate, as in Python `calendar.isleap`. -/
def isLeapYear (y : Nat) : Bool :=
  y % 4 == 0 && (y % 100 != 0 || y % 400 == 0)

/-- Number of days of each month of a common year. -/
def monthLengths : List Nat := [31, 28, 31, 30, 31, 30, 31, 31, 30, 31, 30, 31]

/-- Number of days of month `m` of year `y`. -/
def daysInMonth (y m : Nat) : Nat :=
  monthLengths.getD (m - 1) 0 + (if m == 2 && isLeapYear y then 1 else 0)

/-- Cumulative day counts before each month of a common year. -/
def cumDaysBeforeMonth : List Nat := [0, 31, 59, 90, 120, 151, 181, 212, 243, 273, 304, 334]

/-- Days of year `y` that precede month `m`. -/
def daysBeforeMonth (y m : Nat) : Nat :=
  cumDaysBeforeMonth.getD (m - 1) 0 + (if 2 < m && isLeapYear y then 1 else 0)

/-- Proleptic-Gregorian ordinal of a date (0001-01-01 is day 1), as in
Python `datetime.date.toordinal`. -/
def toOrdinal (y m d : Nat) : Nat :=
  365 * (y - 1) + (y - 1) / 4 - (y - 1) / 100 + (y - 1) / 400 + daysBeforeMonth y m + d

/-- Days between a date and the Unix epoch 1970-01-01 (ordinal 719163). -/
def epochDays (y m d : Nat) : Int :=
  (toOrdinal y m d : Int) - 719163

/-! ### Model of `datetime.fromisoformat` -/

/-- A parsed Python `datetime`: wall-clock seconds since the Unix epoch
plus an optional tz offset in seconds east of UTC (`none` = naive). -/
structure PyDT where
  wall : Int
  tz : Option Int
deriving DecidableEq

/-- Read two decimal digits. -/
def d2 : List Char → Option (Nat × List Char)
  | a :: b :: rest =>
    if a.isDigit && b.isDigit then
      some (10 * (a.toNat - 48) + (b.toNat - 48), rest)
    else none
  | _ => none

/-- Read four decimal digits. -/
def d4 : List Char → Option (Nat × List Char)
  | a :: b :: c :: d :: rest =>
    if a.isDigit && b.isDigit && c.isDigit && d.isDigit then
      some (1000 * (a.toNat - 48) + 100 * (b.toNat - 48) + 10 * (c.toNat - 48)
        + (d.toNat - 48), rest)
    else none
  | _ => none

/-- Consume one expected character. -/
def expectCh (c : Char) : List Char → Option (List Char)
  | x :: rest => if x = c then some rest else none
  | [] => none

/-- Range-validated construction of a parsed datetime value. -/
def mkDT (y mo dy h mi se : Nat) (tz : Option Int) : Option PyDT :=
  if 1 ≤ y && y ≤ 9999 && 1 ≤ mo && mo ≤ 12 && 1 ≤ dy && dy ≤ daysInMonth y mo
      && h ≤ 23 && mi ≤ 59 && se ≤ 59 then
    some { wall := 86400 * epochDays y mo dy + ((3600 * h + 60 * mi + se : Nat) : Int), tz := tz }
  else none

/-- Model of `datetime.fromisoformat`, restricted to the shapes this
program receives: `YYYY-MM-DD` optionally followed by one separator
character (any character, per CPython) and `HH:MM:SS`, optionally
followed by a `+HH:MM` offset.  Any other string is rejected, which
models the `ValueError` raised by Python (in particular for a trailing
`UTC` suffix or trailing whitespace). -/
def fromisoChars (l : List Char) : Option PyDT := do
  let (y, l1) ← d4 l
  let l2 ← expectCh '-' l1
  let (mo, l3) ← d2 l2
  let l4 ← expectCh '-' l3
  let (dy, l5) ← d2 l4
  match l5 with
  | [] => mkDT y mo dy 0 0 0 none
  | _ :: l6 =>
    let (h, l7) ← d2 l6
    let l8 ← expectCh ':' l7
    let (mi, l9) ← d2 l8
    let l10 ← expectCh ':' l9
    let (se, l11) ← d2 l10
    match l11 with
    | [] => mkDT y mo dy h mi se none
    | '+' :: l12 =>
      let (oh, l13) ← d2 l12
      let l14 ← expectCh ':' l13
      let (om, l15) ← d2 l14
      if l15 = [] && oh ≤ 23 && om ≤ 59 then
        mkDT y mo dy h mi se (some ((3600 * oh + 60 * om : Nat) : Int))
      else none
    | _ => none

/-- Model of `datetime.timestamp()`.  Naive datetimes are interpreted in
the local timezone; AWS Lambda runs with TZ=UTC, which this model
assumes, so a naive datetime contributes no offset. -/
def pyTimestamp (dt : PyDT) : Int := dt.wall - dt.tz.getD 0

/-- Model of `.replace(tzinfo=timezone.utc)`. -/
def setUtc (dt : PyDT) : PyDT := { dt with tz := some 0 }

/-- Model of `if dt.tzinfo is None: dt = dt.replace(tzinfo=timezone.utc)`. -/
def ensureUtc (dt : PyDT) : PyDT := if dt.tz.isNone then setUtc dt else dt

theorem pyTimestamp_ensureUtc (dt : PyDT) : pyTimestamp (ensureUtc dt) = pyTimestamp dt := by
  rcases dt with ⟨w, tz⟩
  cases tz <;> simp [ensureUtc, setUtc, pyTimestamp]

/-! ### Python `str.replace`, `str.endswith`, `in` -/

/-- Python `str.replace` (left-to-right, non-overlapping), fuel-indexed
so that it reduces by `rfl`; the fuel is the length of the subject. -/
def replaceFuel (pat rep : List Char) : Nat → List Char → List Char
  | 0, l => l
  | _ + 1, [] => []
  | f + 1, c :: rest =>
    if pat.isPrefixOf (c :: rest) then
      rep ++ replaceFuel pat rep f ((c :: rest).drop pat.length)
    else c :: replaceFuel pat rep f rest

/-- Python `s.endswith(pat)`. -/
def pyEndsWith (l pat : List Char) : Bool :=
  decide (l.drop (l.length - pat.length) = pat)

/-- Does `pat` occur as a contiguous subsequence of `l`
(Python `pat in l`)? -/
def occursIn (pat : List Char) : List Char → Bool
  | [] => pat.isPrefixOf []
  | c :: rest => pat.isPrefixOf (c :: rest) || occursIn pat rest

theorem replaceFuel_of_not_occurs (pat rep : List Char) :
    ∀ (l : List Char) (f : Nat), occursIn pat l = false → l.length ≤ f →
      replaceFuel pat rep f l = l := by
  intro l
  induction l with
  | nil => intro f _ _; cases f <;> rfl
  | cons c rest ih =>
    intro f h hf
    cases f with
    | zero => simp at hf
    | succ f =>
      unfold occursIn at h
      rw [Bool.or_eq_false_iff] at h
      unfold replaceFuel
      rw [h.1]
      simp only [Bool.false_eq_true, if_false]
      rw [ih f h.2 (by simpa using Nat.le_of_succ_le_succ hf)]

theorem isPrefixOf_self (l : List Char) : l.isPrefixOf l = true := by
  induction l with
  | nil => rfl
  | cons c rest ih => simp [List.isPrefixOf, ih]

theorem occursIn_append_self (pat : List Char) (hpat : pat ≠ []) :
    ∀ t : List Char, occursIn pat (t ++ pat) = true := by
  intro t
  induction t with
  | nil =>
    rcases pat with _ | ⟨c, p⟩
    · exact absurd rfl hpat
    · rw [List.nil_append]
      simp only [occursIn, isPrefixOf_self, Bool.true_or]
  | cons c rest ih =>
    rw [List.cons_append]
    simp only [occursIn, ih, Bool.or_true]

theorem occursIn_of_pyEndsWith (pat l : List Char) (hpat : pat ≠ [])
    (h : pyEndsWith l pat = true) : occursIn pat l = true := by
  unfold pyEndsWith at h
  have hdrop : l.drop (l.length - pat.length) = pat := of_decide_eq_true h
  have hsplit := List.take_append_drop (l.length - pat.length) l
  rw [hdrop] at hsplit
  rw [← hsplit]
  exact occursIn_append_self pat hpat _

/-! ### The three date ladders of the source -/

/-- The characters of the `Z` pattern. -/
def zChars : List Char := ['Z']

/-- The characters of the `+00:00` replacement. -/
def plus0000 : List Char := ['+', '0', '0', ':', '0', '0']

/-- The characters of the `UTC` pattern. -/
def utcChars : List Char := ['U', 'T', 'C']

/-- Event-date ladder of `_add_event_description_item` (src lines
336-342): trailing `Z` replaced by `+00:00`; else an explicit `+` offset
parsed as-is; else parse and assume UTC.  Note there is no `UTC`-suffix
rule here.  Returns the POSIX timestamp, or `none` when `fromisoformat`
raises (the caller catches and tries the next field). -/
def parseEventDateChars (l : List Char) : Option Int :=
  if pyEndsWith l zChars then
    (fromisoChars (replaceFuel zChars plus0000 l.length l)).map pyTimestamp
  else if l.contains '+' then
    (fromisoChars l).map pyTimestamp
  else
    (fromisoChars l).map fun dt => pyTimestamp (setUtc dt)

/-- Claim-created ladder of `_add_claim_item` (src lines 389-397), also
duplicated verbatim in `_check_and_add_inactivity_alert` (src lines
446-455): trailing `Z`; else `+` offset or trailing `UTC` (strip `UTC`,
default naive results to UTC); else parse and assume UTC. -/
def parseClaimCreatedChars (l : List Char) : Option Int :=
  if pyEndsWith l zChars then
    (fromisoChars (replaceFuel zChars plus0000 l.length l)).map pyTimestamp
  else if l.contains '+' || pyEndsWith l utcChars then
    (fromisoChars (replaceFuel utcChars [] l.length l)).map fun dt => pyTimestamp (ensureUtc dt)
  else
    (fromisoChars l).map fun dt => pyTimestamp (setUtc dt)

/-- String wrapper of the event ladder. -/
def parseEventDateStr (s : String) : Option Int := parseEventDateChars s.data

/-- String wrapper of the claim ladder. -/
def parseClaimCreated (s : String) : Option Int := parseClaimCreatedChars s.data

/-- Date handling of `_add_address_poap_item` (src line 429):
`fromisoformat(created.replace('Z', '+00:00')).timestamp()`, with a
single `except ValueError` fallback handled by the caller. -/
def parseAddrCreated (s : String) : Option Int :=
  (fromisoChars (replaceFuel zChars plus0000 s.data.length s.data)).map pyTimestamp

/-! ### strftime -/

/-- Civil date (year, month, day) from days since 1970-01-01, standard
Gregorian arithmetic; inverse of `epochDays`. -/
def civilFromDays (z : Int) : Int × Nat × Nat :=
  let z' := z + 719468
  let era := z'.fdiv 146097
  let doe := (z' - era * 146097).toNat
  let yoe := (doe - doe / 1460 + doe / 36524 - doe / 146096) / 365
  let y := (yoe : Int) + era * 400
  let doy := doe - (365 * yoe + yoe / 4 - yoe / 100)
  let mp := (5 * doy + 2) / 153
  let d := doy - (153 * mp + 2) / 5 + 1
  let m := if mp < 10 then mp + 3 else mp - 9
  (if m ≤ 2 then y + 1 else y, m, d)

/-- Zero-padded two-digit number. -/
def pad2 (n : Nat) : String := if n < 10 then "0" ++ natStr n else natStr n

/-- Zero-padded four-digit number. -/
def pad4 (n : Nat) : String :=
  if n < 10 then "000" ++ natStr n
  else if n < 100 then "00" ++ natStr n
  else if n < 1000 then "0" ++ natStr n
  else natStr n

/-- Model of `most_recent_claim.strftime('%Y-%m-%d %H:%M:%S UTC')` for a
UTC datetime given as a POSIX timestamp (all claim instants are
normalized to UTC before this is called). -/
def strftimeYmdHms (t : Int) : String :=
  let days := t.fdiv 86400
  let secs := (t - 86400 * days).toNat
  let ymd := civilFromDays days
  pad4 ymd.1.toNat ++ "-" ++ pad2 ymd.2.1 ++ "-" ++ pad2 ymd.2.2 ++ " " ++
    pad2 (secs / 3600) ++ ":" ++ pad2 (secs % 3600 / 60) ++ ":" ++ pad2 (secs % 60) ++ " UTC"

/-! ### Data model -/

/-- `MAX_CLAIMS_COUNT = 20` (src line 38). -/
def maxClaimsCount : Nat := 20

/-- Upstream event-details record (a JSON dict in the source; the fields
the program reads, each possibly missing). -/
structure EventDetails where
  id : Option String
  name : Option String
  description : Option String
  image_url : Option String
  city : Option String
  country : Option String
  start_date : Option String
  end_date : Option String
  event_date : Option String
  created_date : Option String
  expiry_date : Option String
deriving DecidableEq

/-- The `owner` sub-dict of an event-claim record. -/
structure PoapOwner where
  id : Option String
  ens : Option String
deriving DecidableEq

/-- One record of the event-claims fetch (`get_event_poaps`): the fields
`_add_claim_item` reads.  `id` is the token id. -/
structure Poap where
  owner : Option PoapOwner
  id : Option String
  created : Option String
deriving DecidableEq

/-- The `event` sub-dict of an address-collection record. -/
structure AddrEvent where
  name : Option String
  id : Option String
  image_url : Option String
deriving DecidableEq

/-- One record of the address-collection fetch (`get_address_poaps`):
the fields `_add_address_poap_item` reads. -/
structure AddrPoap where
  event : Option AddrEvent
  tokenId : Option String
  created : Option String
deriving DecidableEq

/-- One RSS `item` element of the document model: the child elements the
builders emit.  `author` is present only on claim and collection items;
`pubDate` is the publish instant (emitted through `formatdate(...,
usegmt=True)` in RFC-2822 GMT form), and is `none` exactly when the
builder adds no `pubDate` element at all. -/
structure FeedItem where
  title : String
  author : Option String
  description : String
  guid : String
  link : String
  pubDate : Option Int
deriving DecidableEq

/-- The document model: channel metadata plus the ordered item list. -/
structure FeedDoc where
  channelTitle : String
  channelDescription : String
  channelLink : String
  language : String
  lastBuildDate : Int
  generator : String
  selfLink : String
  items : List FeedItem
deriving DecidableEq

/-- The fallback details object built by `generate_event_feed` when the
event-details fetch fails (src lines 199-204). -/
def fallbackEventDetails (eventId : Nat) : EventDetails :=
  { id := some (natStr eventId),
    name := some ("POAP Event #" ++ natStr eventId),
    description := some "Event details unavailable",
    image_url := none, city := none, country := none,
    start_date := none, end_date := none, event_date := none,
    created_date := none, expiry_date := none }

/-! ### Item builders -/

/-- The prioritized event date fields tried by
`_add_event_description_item` (src line 331). -/
def eventDateFields (evd : EventDetails) : List (Option String) :=
  [evd.start_date, evd.end_date, evd.event_date, evd.created_date, evd.expiry_date]

/-- First event date field that is present, truthy and parsable
(src lines 328-349): an unparsable field logs a warning and falls
through to the next field. -/
def firstEventTimestamp (evd : EventDetails) : Option Int :=
  ((eventDateFields evd).filterMap fun o => (pyTruthy o).bind parseEventDateStr).head?

/-- `_add_event_description_item` (src lines 298-356).  Consumes one
clock sample only when no event date field yields a timestamp. -/
def addEventDescriptionItem (evd : EventDetails) (c : Nat → Int) (k : Nat) :
    FeedItem × Nat :=
  let name := evd.name.getD "Unknown Event"
  let desc := evd.description.getD "No description available"
  let body :=
    "\n        <h3>" ++ name ++ "</h3>\n        <p>" ++ desc ++ "</p>\n        " ++
    (match pyTruthy evd.image_url with
     | some img => "<img src=\"" ++ img ++ "\" width=\"500\" height=\"500\" />"
     | none => "") ++
    (match pyTruthy evd.city with
     | some city =>
       "<p><strong>Location:</strong> " ++ city ++
       (match pyTruthy evd.country with
        | some co => ", " ++ co
        | none => "") ++ "</p>"
     | none => "")
  let url := "https://poap.gallery/drops/" ++ evd.id.getD "unknown"
  match firstEventTimestamp evd with
  | some t =>
    ({ title := name ++ " Event Details", author := none, description := body,
       guid := url, link := url, pubDate := some t }, k)
  | none =>
    ({ title := name ++ " Event Details", author := none, description := body,
       guid := url, link := url, pubDate := some (c k) }, k + 1)

/-- The `pubDate` computation of `_add_claim_item` (src lines 384-404):
the normalized `created` field when present, truthy and parsable, else
the current time (one clock sample). -/
def claimPub (p : Poap) (c : Nat → Int) (k : Nat) : Int × Nat :=
  match pyTruthy p.created with
  | some s =>
    match parseClaimCreated s with
    | some t => (t, k)
    | none => (c k, k + 1)
  | none => (c k, k + 1)

/-- `_add_claim_item` (src lines 358-404).  The description f-string
indexes `event_details["image_url"]` directly (src line 376), so a
missing `image_url` key raises `KeyError`, modelled as `Except.error`;
nothing in `generate_event_feed` catches it. -/
def addClaimItem (evd : EventDetails) (p : Poap) (c : Nat → Int) (k : Nat) :
    Except Unit (FeedItem × Nat) :=
  match evd.image_url with
  | none => .error ()
  | some img =>
    let ownerAddress := (p.owner.bind PoapOwner.id).getD "unknown"
    let ensName := (p.owner.bind PoapOwner.ens).getD ""
    let displayName := if ensName = "" then pyElide ownerAddress else ensName
    let tokenId := p.id.getD "unknown"
    let body :=
      "\n        <p><strong><a href=\"https://collectors.poap.xyz/scan/" ++ ownerAddress ++
      "\">" ++ displayName ++ "</a></strong>\n        claimed POAP <a href=\"" ++
      "https://collectors.poap.xyz/token/" ++ tokenId ++ "\">" ++ tokenId ++
      "</a> for \n        <strong><a href=\"https://poap.gallery/drops/" ++
      evd.id.getD "Unknown Event" ++ "\">" ++ evd.name.getD "Unknown Event" ++
      "</a></strong></p>\n        <p><img src=\"" ++ img ++
      "\" width=\"500\" height=\"500\" /></p>\n        "
    let (pub, k') := claimPub p c k
    .ok ({ title := "", author := some displayName, description := body,
           guid := "https://collectors.poap.xyz/token/" ++ tokenId,
           link := "https://collectors.poap.xyz/token/" ++ tokenId,
           pubDate := some pub }, k')

/-- The claim-item loop of `generate_event_feed` (src lines 228-230). -/
def buildClaimItems (evd : EventDetails) : List Poap → (Nat → Int) → Nat →
    Except Unit (List FeedItem × Nat)
  | [], _, k => .ok ([], k)
  | p :: ps, c, k =>
    match addClaimItem evd p c k with
    | .error e => .error e
    | .ok (it, k') =>
      match buildClaimItems evd ps c k' with
      | .error e => .error e
      | .ok (its, k'') => .ok (it :: its, k'')

/-- The `pubDate` computation of `_add_address_poap_item` (src lines
427-432): note there is no `else` branch, so a record with a falsy
`created` field produces no `pubDate` element at all. -/
def addrPub (p : AddrPoap) (c : Nat → Int) (k : Nat) : Option Int × Nat :=
  match pyTruthy p.created with
  | some s =>
    match parseAddrCreated s with
    | some t => (some t, k)
    | none => (some (c k), k + 1)
  | none => (none, k)

/-- `_add_address_poap_item` (src lines 406-432). -/
def addAddressPoapItem (p : AddrPoap) (address : String) (c : Nat → Int) (k : Nat) :
    FeedItem × Nat :=
  let eventName := (p.event.bind AddrEvent.name).getD "Unknown Event"
  let eventId := (p.event.bind AddrEvent.id).getD "unknown"
  let eventImageUrl := (p.event.bind AddrEvent.image_url).getD "unknown"
  let body :=
    "\n        <p>Collected POAP <a href=\"https://collectors.poap.xyz/token/" ++
    p.tokenId.getD "unknown" ++ "\">" ++ p.tokenId.getD "unknown" ++
    "</a> for <strong><a href=\"https://poap.gallery/drops/" ++ eventId ++ "\">" ++
    eventName ++ "</a></strong>.</p>\n        <p><img src=\"" ++ eventImageUrl ++
    "\" width=\"500\" height=\"500\" /></p>\n        "
  let (pub, k') := addrPub p c k
  ({ title := "", author := some address, description := body,
     guid := "https://collectors.poap.xyz/token/" ++ p.tokenId.getD "",
     link := "https://collectors.poap.xyz/token/" ++ p.tokenId.getD "",
     pubDate := pub }, k')

/-- The collection-item loop of `generate_address_feed` (src lines
255-257). -/
def buildAddressItems (address : String) : List AddrPoap → (Nat → Int) → Nat →
    List FeedItem × Nat
  | [], _, k => ([], k)
  | p :: ps, c, k =>
    let (it, k') := addAddressPoapItem p address c k
    let (its, k'') := buildAddressItems address ps c k'
    (it :: its, k'')

/-! ### Inactivity check -/

/-- The timestamps of the claims whose `created` field is present,
truthy and parsable (the loop of src lines 442-461). -/
def parsedCreations (poaps : List Poap) : List Int :=
  poaps.filterMap fun p => (pyTruthy p.created).bind parseClaimCreated

/-- The `most_recent_claim` accumulation loop (src lines 441-458):
strictly greater values replace the accumulator. -/
def maxLoop (acc : Option Int) : List Int → Option Int
  | [] => acc
  | d :: rest =>
    maxLoop (match acc with
             | none => some d
             | some m => if m < d then some d else some m) rest

/-- The most recent claim instant. -/
def listMax (l : List Int) : Option Int := maxLoop none l

/-- `weeks_since_last_claim = (now - most_recent_claim).days // 7`
(src lines 468-470): `timedelta.days` and `//` both floor. -/
def weeksSinceLastClaim (now mostRecent : Int) : Int :=
  ((now - mostRecent).fdiv 86400).fdiv 7

/-- The inactivity alert title (src lines 483-486). -/
def inactivityTitle (weeks threshold : Int) : String :=
  if weeks = threshold then
    "No POAP claims in the last " ++ intStr weeks ++ " weeks."
  else intStr weeks ++ " weeks with no claims"

/-- The inactivity alert guid/link (src lines 496-497), parameterized by
event id and elapsed-week count. -/
def inactivityGuid (eventId : String) (weeks : Int) : String :=
  "https://www.poap2rss.com/inactive.html?event=" ++ eventId ++ "&week=" ++ intStr weeks

/-- The inactivity alert body (src lines 489-493). -/
def inactivityBody (weeks mostRecent : Int) : String :=
  "\n            <p>There have been no new POAP claims for this event in " ++
  intStr weeks ++ " weeks.</p>\n            " ++
  "<p>The event may be over. Consider unsubscribing from this feed if no further " ++
  "activity is expected.</p>\n            <p><em>Last claim was on " ++
  strftimeYmdHms mostRecent ++ "</em></p>\n            "

/-- `_check_and_add_inactivity_alert` (src lines 434-500).  Returns the
alert item, if any, plus the new sample counter: `datetime.now` consumes
one sample when some claim date parses, and the alert `pubDate` consumes
one more. -/
def checkInactivity (evd : EventDetails) (poaps : List Poap) (c : Nat → Int)
    (k : Nat) (threshold : Int) : Option FeedItem × Nat :=
  if poaps.isEmpty then (none, k)
  else
    match listMax (parsedCreations poaps) with
    | none => (none, k)
    | some mostRecent =>
      let now := c k
      let weeks := weeksSinceLastClaim now mostRecent
      if threshold ≤ weeks then
        (some { title := inactivityTitle weeks threshold, author := none,
                description := inactivityBody weeks mostRecent,
                guid := inactivityGuid (evd.id.getD "unknown") weeks,
                link := inactivityGuid (evd.id.getD "unknown") weeks,
                pubDate := some (c (k + 1)) }, k + 2)
      else (none, k + 1)

/-! ### The two feed generators -/

/-- The details substitution of `generate_event_feed` (src lines
193-204): a failed fetch is replaced by the placeholder object. -/
def eventDetailsOf (eventId : Nat) (detailsRes : Except Unit EventDetails) : EventDetails :=
  match detailsRes with
  | .ok d => d
  | .error _ => fallbackEventDetails eventId

/-- The claims substitution of `generate_event_feed` (src lines
206-212): a failed fetch is replaced by the empty list. -/
def eventPoapsOf (poapsRes : Except Unit (List Poap)) : List Poap :=
  match poapsRes with
  | .ok l => l
  | .error _ => []

/-- `generate_event_feed` (src lines 189-235), as a function of the two
fetch results, the inactivity threshold (`INACTIVITY_THRESHOLD_WEEKS`)
and the clock sample stream.  Sample order follows the source: channel
`lastBuildDate` first, then the description item fallback, then each
claim fallback, then the inactivity check.  An uncaught Python exception
(the `KeyError` of `_add_claim_item`) is `Except.error`. -/
def generateEventFeed (eventId : Nat) (detailsRes : Except Unit EventDetails)
    (poapsRes : Except Unit (List Poap)) (threshold : Int) (c : Nat → Int) :
    Except Unit FeedDoc :=
  let evd := eventDetailsOf eventId detailsRes
  let poaps := eventPoapsOf poapsRes
  let eventName := evd.name.getD "Unknown Event"
  let eventId' := evd.id.getD "unknown"
  let lastBuild := c 0
  let (descItem, k1) := addEventDescriptionItem evd c 1
  match buildClaimItems evd poaps c k1 with
  | .error e => .error e
  | .ok (claimItemsList, k2) =>
    let inact := (checkInactivity evd poaps c k2 threshold).1
    .ok { channelTitle := "POAP: " ++ eventName,
          channelDescription := "Activity for " ++ eventName ++ " POAP drop.",
          channelLink := "https://poap.gallery/drops/" ++ eventId',
          language := "en-us",
          lastBuildDate := lastBuild,
          generator := "POAP2RSS/1.0",
          selfLink := "https://app.poap2rss.com/event/" ++ eventId',
          items := descItem :: claimItemsList ++ inact.toList }

/-- `_get_ens_name` (src lines 503-507): always returns `None`. -/
def getEnsName (_address : String) : Option String := none

/-- `generate_address_feed` (src lines 237-259).  The collection fetch
result is not wrapped in try/except (src line 242), so a failed fetch
propagates out of the generator. -/
def generateAddressFeed (address : String) (poapsRes : Except Unit (List AddrPoap))
    (c : Nat → Int) : Except Unit FeedDoc :=
  match poapsRes with
  | .error e => .error e
  | .ok poaps =>
    let displayName :=
      match getEnsName address with
      | some n => n
      | none => pyElide address
    let lastBuild := c 0
    let (items, _) := buildAddressItems address (poaps.take maxClaimsCount) c 1
    .ok { channelTitle := "POAP: " ++ displayName ++ " Collection",
          channelDescription := "Latest POAP tokens for " ++ displayName ++ ".",
          channelLink := "https://collectors.poap.xyz/scan/" ++ address,
          language := "en-us",
          lastBuildDate := lastBuild,
          generator := "POAP2RSS/1.0",
          selfLink := "https://app.poap2rss.com/address/" ++ address,
          items := items }

/-! ### The CDATA re-wrapping pass of `_format_xml` -/

/-- ElementTree text escaping (`tostring`): `&`, `<`, `>` become entity
references. -/
def xmlEscapeChar (c : Char) : List Char :=
  if c = '&' then ['&', 'a', 'm', 'p', ';']
  else if c = '<' then ['&', 'l', 't', ';']
  else if c = '>' then ['&', 'g', 't', ';']
  else [c]

/-- ElementTree text escaping over a string. -/
def xmlEscape (l : List Char) : List Char := (l.map xmlEscapeChar).flatten

/-- Prefix test on character lists (defined so that it reduces
definitionally when the pattern is concrete). -/
def isPrefixCh : List Char → List Char → Bool
  | [], _ => true
  | _ :: _, [] => false
  | a :: as, b :: bs => if a = b then isPrefixCh as bs else false

/-- Entity resolution over the five XML entities, fuel-indexed.  An `&`
that starts no known entity reference is kept as-is. -/
def unescapeEntitiesFuel : Nat → List Char → List Char
  | 0, l => l
  | _ + 1, [] => []
  | f + 1, c :: rest =>
    if c = '&' then
      if isPrefixCh ['a', 'm', 'p', ';'] rest then
        '&' :: unescapeEntitiesFuel f (rest.drop 4)
      else if isPrefixCh ['l', 't', ';'] rest then
        '<' :: unescapeEntitiesFuel f (rest.drop 3)
      else if isPrefixCh ['g', 't', ';'] rest then
        '>' :: unescapeEntitiesFuel f (rest.drop 3)
      else if isPrefixCh ['q', 'u', 'o', 't', ';'] rest then
        '"' :: unescapeEntitiesFuel f (rest.drop 5)
      else if isPrefixCh ['a', 'p', 'o', 's', ';'] rest then
        '\'' :: unescapeEntitiesFuel f (rest.drop 5)
      else '&' :: unescapeEntitiesFuel f rest
    else c :: unescapeEntitiesFuel f rest

/-- Entity resolution done by the `minidom.parseString` XML parser on
the serialized text (the joined character data of the text children). -/
def xmlUnescape (l : List Char) : List Char := unescapeEntitiesFuel l.length l

/-- Model of `html.unescape` (src line 518), restricted to the
semicolon-terminated basic entities, which is what escaped XML text can
contain. -/
def htmlUnescape (l : List Char) : List Char := unescapeEntitiesFuel l.length l

/-- One rendered `description` element after `_format_xml` (src lines
509-523): the tree is serialized (escaping text), re-parsed (resolving
entities), and every non-empty `description` text is `html.unescape`d
once more and re-wrapped in a literal CDATA section.  Parsing the final
output recovers `content` verbatim (a CDATA section is raw character
data; upstream text containing a CDATA terminator is out of scope, as
the source leaves it undefined). -/
structure RenderedDesc where
  isCData : Bool
  content : List Char
deriving DecidableEq

/-- The description transformation of `_format_xml`: empty text has no
child nodes and is left alone; anything else is re-wrapped. -/
def formatXmlDescription (t : String) : RenderedDesc :=
  if t.data = [] then { isCData := false, content := [] }
  else { isCData := true, content := htmlUnescape (xmlUnescape (xmlEscape t.data)) }

theorem unescapeEntitiesFuel_nil (f : Nat) : unescapeEntitiesFuel f [] = [] := by
  cases f <;> rfl

theorem unescape_escape (l : List Char) : ∀ f : Nat, (xmlEscape l).length ≤ f →
    unescapeEntitiesFuel f (xmlEscape l) = l := by
  induction l with
  | nil =>
    intro f _
    show unescapeEntitiesFuel f [] = []
    exact unescapeEntitiesFuel_nil f
  | cons c rest ih =>
    intro f hf
    have hesc : xmlEscape (c :: rest) = xmlEscapeChar c ++ xmlEscape rest := by
      simp [xmlEscape]
    by_cases hamp : c = '&'
    · subst hamp
      rw [hesc] at hf ⊢
      rw [show xmlEscapeChar '&' = ['&', 'a', 'm', 'p', ';'] from rfl] at hf ⊢
      cases f with
      | zero => simp at hf
      | succ f =>
        have hstep : unescapeEntitiesFuel (f + 1) (['&', 'a', 'm', 'p', ';'] ++ xmlEscape rest)
            = '&' :: unescapeEntitiesFuel f (xmlEscape rest) := rfl
        rw [hstep, ih f (by simp at hf ⊢; omega)]
    · by_cases hlt : c = '<'
      · subst hlt
        rw [hesc] at hf ⊢
        rw [show xmlEscapeChar '<' = ['&', 'l', 't', ';'] from rfl] at hf ⊢
        cases f with
        | zero => simp at hf
        | succ f =>
          have hstep : unescapeEntitiesFuel (f + 1) (['&', 'l', 't', ';'] ++ xmlEscape rest)
              = '<' :: unescapeEntitiesFuel f (xmlEscape rest) := rfl
          rw [hstep, ih f (by simp at hf ⊢; omega)]
      · by_cases hgt : c = '>'
        · subst hgt
          rw [hesc] at hf ⊢
          rw [show xmlEscapeChar '>' = ['&', 'g', 't', ';'] from rfl] at hf ⊢
          cases f with
          | zero => simp at hf
          | succ f =>
            have hstep : unescapeEntitiesFuel (f + 1) (['&', 'g', 't', ';'] ++ xmlEscape rest)
                = '>' :: unescapeEntitiesFuel f (xmlEscape rest) := rfl
            rw [hstep, ih f (by simp at hf ⊢; omega)]
        · rw [hesc] at hf ⊢
          have hchar : xmlEscapeChar c = [c] := by
            simp [xmlEscapeChar, hamp, hlt, hgt]
          rw [hchar] at hf ⊢
          cases f with
          | zero => simp at hf
          | succ f =>
            show unescapeEntitiesFuel (f + 1) (c :: xmlEscape rest) = c :: rest
            unfold unescapeEntitiesFuel
            rw [if_neg hamp]
            rw [ih f (by simp at hf ⊢; omega)]

/-- The escape applied by `tostring` and the entity resolution applied
by the re-parse cancel exactly. -/
theorem xmlUnescape_xmlEscape (l : List Char) : xmlUnescape (xmlEscape l) = l :=
  unescape_escape l _ le_rfl

theorem unescape_no_amp (l : List Char) : ∀ f : Nat, '&' ∉ l → l.length ≤ f →
    unescapeEntitiesFuel f l = l := by
  induction l with
  | nil => intro f _ _; exact unescapeEntitiesFuel_nil f
  | cons c rest ih =>
    intro f h hf
    cases f with
    | zero => simp at hf
    | succ f =>
      have hc : c ≠ '&' := fun hcon => h (hcon ▸ List.mem_cons_self c rest)
      unfold unescapeEntitiesFuel
      simp only [hc, if_false]
      rw [ih f (fun hcon => h (List.mem_cons_of_mem c hcon)) (by simp at hf ⊢; omega)]

/-- `html.unescape` leaves a string without `&` unchanged. -/
theorem htmlUnescape_no_amp (l : List Char) (h : '&' ∉ l) : htmlUnescape l = l :=
  unescape_no_amp l _ h le_rfl

/-- The rendered content of a description is the builder's body
`html.unescape`d once (the serializer escape and the parser entity
resolution cancel; `html.unescape` then runs on already-unescaped
text). -/
theorem formatXmlDescription_content (t : String) :
    (formatXmlDescription t).content = htmlUnescape t.data := by
  unfold formatXmlDescription
  by_cases h : t.data = []
  · simp [h, htmlUnescape, unescapeEntitiesFuel_nil]
  · simp [h, xmlUnescape_xmlEscape]

/-! ### Helper lemmas -/

theorem maxLoop_spec : ∀ (l : List Int) (acc : Option Int) (m : Int),
    maxLoop acc l = some m →
    (m ∈ l ∨ acc = some m) ∧ (∀ x ∈ l, x ≤ m) ∧ (∀ a, acc = some a → a ≤ m) := by
  intro l
  induction l with
  | nil =>
    intro acc m h
    have hacc : acc = some m := h
    refine ⟨Or.inr hacc, by simp, fun a ha => ?_⟩
    rw [hacc] at ha
    simp at ha
    omega
  | cons d rest ih =>
    intro acc m h
    unfold maxLoop at h
    cases acc with
    | none =>
      obtain ⟨hmem, hub, hacc⟩ := ih (some d) m h
      have hdm : d ≤ m := hacc d rfl
      refine ⟨?_, ?_, by simp⟩
      · rcases hmem with h1 | h1
        · exact Or.inl (List.mem_cons_of_mem d h1)
        · simp at h1
          exact Or.inl (h1 ▸ List.mem_cons_self d rest)
      · intro x hx
        rcases List.mem_cons.mp hx with rfl | hx'
        · exact hdm
        · exact hub x hx'
    | some a =>
      by_cases hlt : a < d
      · simp only [hlt, if_true] at h
        obtain ⟨hmem, hub, hacc⟩ := ih (some d) m h
        have hdm : d ≤ m := hacc d rfl
        refine ⟨?_, ?_, fun a' ha' => ?_⟩
        · rcases hmem with h1 | h1
          · exact Or.inl (List.mem_cons_of_mem d h1)
          · simp at h1
            exact Or.inl (h1 ▸ List.mem_cons_self d rest)
        · intro x hx
          rcases List.mem_cons.mp hx with rfl | hx'
          · exact hdm
          · exact hub x hx'
        · simp at ha'
          omega
      · simp only [hlt, if_false] at h
        obtain ⟨hmem, hub, hacc⟩ := ih (some a) m h
        have ham : a ≤ m := hacc a rfl
        refine ⟨?_, ?_, fun a' ha' => ?_⟩
        · rcases hmem with h1 | h1
          · exact Or.inl (List.mem_cons_of_mem d h1)
          · exact Or.inr h1
        · intro x hx
          rcases List.mem_cons.mp hx with rfl | hx'
          · omega
          · exact hub x hx'
        · simp at ha'
          omega

/-- The loop value is the maximum of the parsable claim instants. -/
theorem listMax_spec (l : List Int) (m : Int) (h : listMax l = some m) :
    m ∈ l ∧ ∀ x ∈ l, x ≤ m := by
  obtain ⟨hmem, hub, _⟩ := maxLoop_spec l none m h
  rcases hmem with h1 | h1
  · exact ⟨h1, hub⟩
  · simp at h1

theorem weeksSinceLastClaim_mono {m n1 n2 : Int} (h : n1 ≤ n2) :
    weeksSinceLastClaim n1 m ≤ weeksSinceLastClaim n2 m := by
  unfold weeksSinceLastClaim
  rw [Int.fdiv_eq_ediv _ (by norm_num), Int.fdiv_eq_ediv _ (by norm_num),
    Int.fdiv_eq_ediv _ (by norm_num), Int.fdiv_eq_ediv _ (by norm_num)]
  apply Int.ediv_le_ediv (by norm_num)
  apply Int.ediv_le_ediv (by norm_num)
  omega

theorem addClaimItem_ok (evd : EventDetails) (p : Poap) (c : Nat → Int) (k : Nat)
    (it : FeedItem) (k' : Nat) (h : addClaimItem evd p c k = .ok (it, k')) :
    it.guid = "https://collectors.poap.xyz/token/" ++ p.id.getD "unknown" ∧
    it.pubDate = some (((pyTruthy p.created).bind parseClaimCreated).getD (c k)) := by
  unfold addClaimItem at h
  cases him : evd.image_url with
  | none => rw [him] at h; exact absurd h (by simp)
  | some img =>
    rw [him] at h
    rcases hcp : claimPub p c k with ⟨pub, k1⟩
    rw [hcp] at h
    simp only [Except.ok.injEq, Prod.mk.injEq] at h
    obtain ⟨hit, _⟩ := h
    have hval : (claimPub p c k).1 = ((pyTruthy p.created).bind parseClaimCreated).getD (c k) := by
      unfold claimPub
      cases pyTruthy p.created with
      | none => rfl
      | some s =>
        show (match parseClaimCreated s with
          | some t => (t, k)
          | none => (c k, k + 1)).1 = (parseClaimCreated s).getD (c k)
        cases parseClaimCreated s with
        | none => rfl
        | some t => rfl
    have hp1 : (claimPub p c k).1 = pub := by rw [hcp]
    constructor
    · rw [← hit]
    · rw [← hit]
      show some pub = _
      rw [← hp1, hval]

theorem buildClaimItems_ok (evd : EventDetails) :
    ∀ (ps : List Poap) (c : Nat → Int) (k : Nat) (cs : List FeedItem) (k' : Nat),
      buildClaimItems evd ps c k = .ok (cs, k') →
      cs.length = ps.length ∧
      ∀ i (hi : i < cs.length) (hp : i < ps.length),
        (cs.get ⟨i, hi⟩).guid =
          "https://collectors.poap.xyz/token/" ++ ((ps.get ⟨i, hp⟩).id.getD "unknown") := by
  intro ps
  induction ps with
  | nil =>
    intro c k cs k' h
    simp only [buildClaimItems, Except.ok.injEq, Prod.mk.injEq] at h
    obtain ⟨hcs, _⟩ := h
    subst hcs
    exact ⟨rfl, by intro i hi _; simp at hi⟩
  | cons p rest ih =>
    intro c k cs k' h
    unfold buildClaimItems at h
    cases ha : addClaimItem evd p c k with
    | error e => rw [ha] at h; exact absurd h (by simp)
    | ok x =>
      rcases x with ⟨it, k1⟩
      rw [ha] at h
      have h2 : (match buildClaimItems evd rest c k1 with
          | Except.error e => Except.error e
          | Except.ok (its, k'') => Except.ok (it :: its, k'')) = Except.ok (cs, k') := h
      cases hb : buildClaimItems evd rest c k1 with
      | error e => rw [hb] at h2; exact absurd h2 (by simp)
      | ok y =>
        rcases y with ⟨its, k2⟩
        rw [hb] at h2
        simp only [Except.ok.injEq, Prod.mk.injEq] at h2
        obtain ⟨hcs, _⟩ := h2
        subst hcs
        obtain ⟨hlen, hguid⟩ := ih c k1 its k2 hb
        refine ⟨by simp [hlen], ?_⟩
        intro i hi hp
        cases i with
        | zero =>
          exact (addClaimItem_ok evd p c k it k1 ha).1
        | succ j =>
          have hj : j < its.length := by simp at hi; omega
          have hjp : j < rest.length := by simp at hp; omega
          exact hguid j hj hjp

/-- A string whose left part is nonempty is nonempty. -/
theorem append_data_ne_nil (s n : String) (hs : s.data ≠ []) : (s ++ n).data ≠ [] := by
  rw [String.data_append]
  intro hcon
  exact hs (List.append_eq_nil.mp hcon).1

/-- Inversion of a successful event-feed generation: the claim-item loop
succeeded and the document is the assembled record. -/
theorem generateEventFeed_ok (eventId : Nat) (dr : Except Unit EventDetails)
    (pr : Except Unit (List Poap)) (th : Int) (c : Nat → Int) (doc : FeedDoc)
    (h : generateEventFeed eventId dr pr th c = .ok doc) :
    ∃ cs k2,
      buildClaimItems (eventDetailsOf eventId dr) (eventPoapsOf pr) c
        (addEventDescriptionItem (eventDetailsOf eventId dr) c 1).2 = .ok (cs, k2) ∧
      doc = { channelTitle :=
                "POAP: " ++ (eventDetailsOf eventId dr).name.getD "Unknown Event",
              channelDescription :=
                "Activity for " ++ (eventDetailsOf eventId dr).name.getD "Unknown Event"
                  ++ " POAP drop.",
              channelLink :=
                "https://poap.gallery/drops/" ++ (eventDetailsOf eventId dr).id.getD "unknown",
              language := "en-us",
              lastBuildDate := c 0,
              generator := "POAP2RSS/1.0",
              selfLink :=
                "https://app.poap2rss.com/event/" ++ (eventDetailsOf eventId dr).id.getD "unknown",
              items := (addEventDescriptionItem (eventDetailsOf eventId dr) c 1).1 :: cs ++
                ((checkInactivity (eventDetailsOf eventId dr) (eventPoapsOf pr) c k2 th).1).toList } := by
  simp only [generateEventFeed] at h
  rcases hd : addEventDescriptionItem (eventDetailsOf eventId dr) c 1 with ⟨descItem, k1⟩
  rw [hd] at h
  have h2 : (match buildClaimItems (eventDetailsOf eventId dr) (eventPoapsOf pr) c k1 with
      | Except.error e => Except.error e
      | Except.ok (cs, k2) =>
        Except.ok { channelTitle :=
                      "POAP: " ++ (eventDetailsOf eventId dr).name.getD "Unknown Event",
                    channelDescription :=
                      "Activity for " ++ (eventDetailsOf eventId dr).name.getD "Unknown Event"
                        ++ " POAP drop.",
                    channelLink :=
                      "https://poap.gallery/drops/" ++
                        (eventDetailsOf eventId dr).id.getD "unknown",
                    language := "en-us",
                    lastBuildDate := c 0,
                    generator := "POAP2RSS/1.0",
                    selfLink :=
                      "https://app.poap2rss.com/event/" ++
                        (eventDetailsOf eventId dr).id.getD "unknown",
                    items := descItem :: cs ++
                      ((checkInactivity (eventDetailsOf eventId dr) (eventPoapsOf pr) c k2
                        th).1).toList } : Except Unit FeedDoc) = Except.ok doc := h
  cases hb : buildClaimItems (eventDetailsOf eventId dr) (eventPoapsOf pr) c k1 with
  | error e => rw [hb] at h2; exact absurd h2 (by simp)
  | ok x =>
    rcases x with ⟨cs, k2⟩
    rw [hb] at h2
    simp only [Except.ok.injEq] at h2
    refine ⟨cs, k2, ?_, ?_⟩
    · rfl
    · rw [← h2]

/-! ### Sample inputs for concrete evaluations -/

/-- A constant zero clock. -/
def sampleClockZero : Nat → Int := fun _ => 0

/-- Event details with every field missing. -/
def emptyEventDetails : EventDetails :=
  { id := none, name := none, description := none, image_url := none, city := none,
    country := none, start_date := none, end_date := none, event_date := none,
    created_date := none, expiry_date := none }

/-- Event details carrying an `image_url`. -/
def evdWithImage : EventDetails :=
  { id := some "12345", name := some "Test Drop", description := some "A test",
    image_url := some "https://img.example/i.png", city := none, country := none,
    start_date := none, end_date := none, event_date := none,
    created_date := none, expiry_date := none }

/-- A claim with a bare (naive) `created` timestamp. -/
def sampleClaimA : Poap :=
  { owner := some { id := some "0x1111222233334444", ens := none },
    id := some "7000001", created := some "2025-07-03 03:55:35" }

/-- A claim with no `created` field. -/
def sampleClaimB : Poap := { owner := none, id := some "7000002", created := none }

/-- A claim created at 2025-01-01 00:00:00Z (POSIX 1735689600). -/
def sampleClaimOld : Poap :=
  { owner := some { id := some "0x1111222233334444", ens := none },
    id := some "7000001", created := some "2025-01-01 00:00:00Z" }

/-- An address-collection record with no `created` field. -/
def addrPoapNoCreated : AddrPoap :=
  { event := none, tokenId := some "123", created := none }

/-- A clock 35 days (5 weeks) after `sampleClaimOld`. -/
def clock5w : Nat → Int := fun _ => 1735689600 + 35 * 86400

/-- A clock that never advances. -/
def clockA : Nat → Int := fun _ => 0

/-- A clock that agrees with `clockA` on the first sample only. -/
def clockB : Nat → Int := fun n => if n = 0 then 0 else 86400

/-- The document generated for event 7 with empty details, no claims and
the zero clock. -/
def sampleDocNoClaims : FeedDoc :=
  { channelTitle := "POAP: Unknown Event",
    channelDescription := "Activity for Unknown Event POAP drop.",
    channelLink := "https://poap.gallery/drops/unknown",
    language := "en-us",
    lastBuildDate := 0,
    generator := "POAP2RSS/1.0",
    selfLink := "https://app.poap2rss.com/event/unknown",
    items := [{ title := "Unknown Event Event Details", author := none,
                description :=
                  "\n        <h3>Unknown Event</h3>\n        <p>No description available</p>\n        ",
                guid := "https://poap.gallery/drops/unknown",
                link := "https://poap.gallery/drops/unknown",
                pubDate := some 0 }] }

/-! ### Claim C1 -/

/-- C1: the spec says that when the event-details fetch fails but the
claims fetch succeeds with N records, `generate_event_feed` still
returns a complete feed (placeholder description item plus N claim
items, no failure surfaced).  The code intends this (it builds the
placeholder object precisely to continue), but `_add_claim_item`
indexes `event_details["image_url"]` directly (src line 376) and the
placeholder has no `image_url` key, so with N >= 1 the `KeyError`
aborts feed generation; with N = 0 the placeholder feed is produced as
specified.  This theorem evaluates the code at the failing input. -/
theorem c1_details_failure_keyerror :
    generateEventFeed 42 (.error ()) (.ok [sampleClaimA, sampleClaimB]) 4 sampleClockZero
      = .error () ∧
    (generateEventFeed 42 (.error ()) (.ok []) 4 sampleClockZero).toOption.map
        (fun d => d.items.map FeedItem.title) = some ["POAP Event #42 Event Details"] :=
  ⟨rfl, rfl⟩

/-! ### Claim C2 -/

/-- C2 counterexample: the four-rule ladder is not applied identically
to event dates and claim dates.  On `2025-07-03 03:55:35UTC` the claim
ladder strips the `UTC` suffix and parses, while the event ladder has
no `UTC` rule and fails. -/
theorem c2_ladder_divergence_cex :
    parseEventDateStr "2025-07-03 03:55:35UTC" ≠
      parseClaimCreated "2025-07-03 03:55:35UTC" ∧
    parseEventDateStr "2025-07-03 03:55:35UTC" = none ∧
    parseClaimCreated "2025-07-03 03:55:35UTC" = some 1751514935 :=
  ⟨by decide, rfl, rfl⟩

/-- C2 (amended): the claim ladder has all four rules; the event-date
ladder omits the `UTC`-suffix rule (such strings are unparsable there).
On every string in which `UTC` does not occur, the two ladders agree. -/
theorem c2_ladders_agree (s : String) (h : occursIn utcChars s.data = false) :
    parseEventDateStr s = parseClaimCreated s := by
  unfold parseEventDateStr parseClaimCreated parseEventDateChars parseClaimCreatedChars
  by_cases hz : pyEndsWith s.data zChars = true
  · rw [if_pos hz, if_pos hz]
  · rw [if_neg hz, if_neg hz]
    have hutc : pyEndsWith s.data utcChars = false := by
      by_contra hcon
      rw [Bool.not_eq_false] at hcon
      rw [occursIn_of_pyEndsWith utcChars s.data (by decide) hcon] at h
      simp at h
    by_cases hp : s.data.contains '+' = true
    · rw [if_pos hp, if_pos (by rw [hp]; rfl)]
      rw [replaceFuel_of_not_occurs utcChars [] s.data s.data.length h le_rfl]
      cases fromisoChars s.data with
      | none => rfl
      | some dt => simp [pyTimestamp_ensureUtc]
    · have hp' : s.data.contains '+' = false := by
        rwa [Bool.not_eq_true] at hp
      rw [if_neg hp, if_neg (by rw [hp', hutc]; simp)]

/-- C2 witness: the two ladders agree at a concrete `Z`-suffixed
string. -/
theorem c2_ladders_agree_witness :
    occursIn utcChars "2025-07-03 03:55:35Z".data = false ∧
    parseEventDateStr "2025-07-03 03:55:35Z" = parseClaimCreated "2025-07-03 03:55:35Z" :=
  ⟨by decide, c2_ladders_agree "2025-07-03 03:55:35Z" (by decide)⟩

/-! ### Claim C3 -/

/-- C3 counterexample: the rendered description is not a verbatim
round-trip for bodies holding entity text.  `_format_xml` applies
`html.unescape` to text the parser has already unescaped, so a body
containing `&amp;` comes back as `&`. -/
theorem c3_roundtrip_cex :
    (formatXmlDescription "Tom &amp; Jerry").isCData = true ∧
    (formatXmlDescription "Tom &amp; Jerry").content ≠ "Tom &amp; Jerry".data ∧
    (formatXmlDescription "Tom &amp; Jerry").content = "Tom & Jerry".data :=
  ⟨rfl, by decide, rfl⟩

/-- C3 (amended): every non-empty description is emitted as a literal
CDATA section; its content (what parsing the output recovers) is the
HTML body `html.unescape`d once, which is the body itself exactly when
the body contains no `&`. -/
theorem c3_roundtrip_amended (body : String) :
    (formatXmlDescription body).content = htmlUnescape body.data ∧
    (body.data ≠ [] → (formatXmlDescription body).isCData = true) ∧
    ('&' ∉ body.data → (formatXmlDescription body).content = body.data) := by
  refine ⟨formatXmlDescription_content body, fun h => ?_, fun h => ?_⟩
  · simp [formatXmlDescription, h]
  · rw [formatXmlDescription_content body, htmlUnescape_no_amp body.data h]

/-- C3 witness: a concrete ampersand-free HTML body round-trips
verbatim through a CDATA section. -/
theorem c3_roundtrip_amended_witness :
    (formatXmlDescription "<p>hi</p>").content = htmlUnescape "<p>hi</p>".data ∧
    (formatXmlDescription "<p>hi</p>").isCData = true ∧
    (formatXmlDescription "<p>hi</p>").content = "<p>hi</p>".data :=
  ⟨(c3_roundtrip_amended "<p>hi</p>").1,
   (c3_roundtrip_amended "<p>hi</p>").2.1 (by decide),
   (c3_roundtrip_amended "<p>hi</p>").2.2 (by decide)⟩

/-! ### Claim C4 -/

/-- C4 counterexample: an address-collection record with no `created`
field yields an item with no `pubDate` element at all (src lines
427-432 have no `else` branch), not a `pubDate` of now. -/
theorem c4_addr_pubdate_cex :
    ((addAddressPoapItem addrPoapNoCreated "0xabc" sampleClockZero 0).1).pubDate = none :=
  rfl

/-- C4 (amended): a claim item always carries a `pubDate` — the
normalized `created` field when truthy and parsable, else the current
clock sample; an address-collection item carries a `pubDate` only when
its `created` field is truthy (parse failure falls back to now), and
omits it otherwise. -/
theorem c4_item_pubdate_spec (evd : EventDetails) (p : Poap) (ap : AddrPoap)
    (address : String) (c : Nat → Int) (k : Nat) (himg : evd.image_url.isSome = true) :
    (addClaimItem evd p c k).toOption.map (fun x => x.1.pubDate) =
      some (some (((pyTruthy p.created).bind parseClaimCreated).getD (c k))) ∧
    (addAddressPoapItem ap address c k).1.pubDate =
      ((pyTruthy ap.created).map fun s => (parseAddrCreated s).getD (c k)) := by
  constructor
  · cases him : evd.image_url with
    | none => rw [him] at himg; simp at himg
    | some img =>
      cases ha : addClaimItem evd p c k with
      | error e =>
        exfalso
        unfold addClaimItem at ha
        rw [him] at ha
        rcases hcp : claimPub p c k with ⟨pub, k1⟩
        rw [hcp] at ha
        exact absurd ha (by simp)
      | ok x =>
        rcases x with ⟨it, k'⟩
        obtain ⟨_, hpd⟩ := addClaimItem_ok evd p c k it k' ha
        simp [Except.toOption, hpd]
  · have hval : (addAddressPoapItem ap address c k).1.pubDate = (addrPub ap c k).1 := by
      unfold addAddressPoapItem
      rcases addrPub ap c k with ⟨pub, k'⟩
      rfl
    rw [hval]
    unfold addrPub
    cases pyTruthy ap.created with
    | none => rfl
    | some s =>
      show (match parseAddrCreated s with
        | some t => (some t, k)
        | none => (some (c k), k + 1)).1 = some ((parseAddrCreated s).getD (c k))
      cases parseAddrCreated s with
      | none => rfl
      | some t => rfl

/-- C4 witness: the claim-item and address-item `pubDate` rules at
concrete inputs. -/
theorem c4_item_pubdate_witness :
    ((addClaimItem evdWithImage sampleClaimA sampleClockZero 0).toOption.map
        (fun x => x.1.pubDate) =
      some (some (((pyTruthy sampleClaimA.created).bind parseClaimCreated).getD
        (sampleClockZero 0)))) ∧
    (addAddressPoapItem addrPoapNoCreated "0xabc" sampleClockZero 0).1.pubDate =
      ((pyTruthy addrPoapNoCreated.created).map fun s =>
        (parseAddrCreated s).getD (sampleClockZero 0)) :=
  c4_item_pubdate_spec evdWithImage sampleClaimA addrPoapNoCreated "0xabc"
    sampleClockZero 0 (by rfl)

/-! ### Claim C5 -/

/-- C5 counterexample: a failed collection fetch is not substituted
with an empty result for the address feed — `generate_address_feed`
has no try/except around the fetch (src line 242) and the failure
propagates. -/
theorem c5_address_failure_cex :
    generateAddressFeed "0xabc" (.error ()) sampleClockZero = .error () := rfl

/-- C5 (amended): only the event feed substitutes an empty result set
when the claims fetch fails — it still produces a feed whose sole item
is the event-description item; the address feed propagates the fetch
failure. -/
theorem c5_claims_failure_handling (eventId : Nat) (evd : EventDetails) (th : Int)
    (c : Nat → Int) (address : String) :
    (generateEventFeed eventId (.ok evd) (.error ()) th c).toOption.map FeedDoc.items =
      some [(addEventDescriptionItem evd c 1).1] ∧
    generateAddressFeed address (.error ()) c = .error () := by
  constructor
  · rcases hd : addEventDescriptionItem evd c 1 with ⟨d, k1⟩
    simp only [generateEventFeed, eventDetailsOf, eventPoapsOf, hd]
    simp [buildClaimItems, checkInactivity, Except.toOption]
  · rfl

/-! ### Claim C6 -/

/-- C6: over a claim set with at least one parsable timestamp, the
inactivity check takes the maximum parsable instant, computes
`weeksSince = floor((now - mostRecent) in days / 7)`, and produces
exactly one notice iff `weeksSince >= threshold`, titled
"No POAP claims in the last N weeks." at equality and
"N weeks with no claims" otherwise; with no claims or none parsable,
no notice is produced. -/
theorem c6_inactivity_spec (evd : EventDetails) (ps : List Poap) (c : Nat → Int)
    (k : Nat) (th m : Int) (hm : listMax (parsedCreations ps) = some m) :
    (m ∈ parsedCreations ps ∧ ∀ x ∈ parsedCreations ps, x ≤ m) ∧
    ((checkInactivity evd ps c k th).1.isSome = true ↔
      th ≤ weeksSinceLastClaim (c k) m) ∧
    (∀ it, (checkInactivity evd ps c k th).1 = some it →
      it.title = if weeksSinceLastClaim (c k) m = th
        then "No POAP claims in the last " ++ intStr (weeksSinceLastClaim (c k) m)
          ++ " weeks."
        else intStr (weeksSinceLastClaim (c k) m) ++ " weeks with no claims") ∧
    (∀ ps' : List Poap, listMax (parsedCreations ps') = none →
      (checkInactivity evd ps' c k th).1 = none) := by
  have hne : ps.isEmpty = false := by
    cases ps with
    | nil => simp [parsedCreations, listMax, maxLoop] at hm
    | cons p rest => rfl
  have hrw : checkInactivity evd ps c k th =
      (if th ≤ weeksSinceLastClaim (c k) m then
        (some { title := inactivityTitle (weeksSinceLastClaim (c k) m) th, author := none,
                description := inactivityBody (weeksSinceLastClaim (c k) m) m,
                guid := inactivityGuid (evd.id.getD "unknown") (weeksSinceLastClaim (c k) m),
                link := inactivityGuid (evd.id.getD "unknown") (weeksSinceLastClaim (c k) m),
                pubDate := some (c (k + 1)) }, k + 2)
      else (none, k + 1)) := by
    unfold checkInactivity
    rw [hne, hm]
    simp
  refine ⟨listMax_spec _ m hm, ?_, ?_, ?_⟩
  · rw [hrw]
    by_cases hth : th ≤ weeksSinceLastClaim (c k) m
    · simp [hth]
    · simp [hth]
  · intro it hit
    rw [hrw] at hit
    by_cases hth : th ≤ weeksSinceLastClaim (c k) m
    · rw [if_pos hth] at hit
      simp only [Option.some.injEq] at hit
      rw [← hit]
      rfl
    · rw [if_neg hth] at hit
      simp at hit
  · intro ps' h'
    by_cases he : ps'.isEmpty = true
    · simp [checkInactivity, he]
    · have he' : ps'.isEmpty = false := by rwa [Bool.not_eq_true] at he
      simp [checkInactivity, he', h']

/-- C6 witness: a single claim created at 2025-01-01 00:00:00Z checked
35 days later fires the threshold-4 notice. -/
theorem c6_inactivity_witness :
    ((checkInactivity emptyEventDetails [sampleClaimOld] clock5w 0 4).1.isSome = true ↔
      (4 : Int) ≤ weeksSinceLastClaim (clock5w 0) 1735689600) :=
  (c6_inactivity_spec emptyEventDetails [sampleClaimOld] clock5w 0 4 1735689600
    (by decide)).2.1

/-! ### Claim C7 -/

/-- C7: the inactivity evaluation is monotonic in `now` — increasing
`now` never decreases `weeksSince`, and once past the threshold it
stays past it; and the notice guid encodes the week count, so distinct
elapsed-week counts give distinct guids. -/
theorem c7_inactivity_monotone_guid (m th n1 n2 w1 w2 : Int) (eid : String)
    (h12 : n1 ≤ n2) :
    weeksSinceLastClaim n1 m ≤ weeksSinceLastClaim n2 m ∧
    (th ≤ weeksSinceLastClaim n1 m → th ≤ weeksSinceLastClaim n2 m) ∧
    (w1 ≠ w2 → inactivityGuid eid w1 ≠ inactivityGuid eid w2) := by
  refine ⟨weeksSinceLastClaim_mono h12,
    fun h => le_trans h (weeksSinceLastClaim_mono h12), fun hw hg => ?_⟩
  apply hw
  have hdata := congrArg String.data hg
  unfold inactivityGuid at hdata
  simp only [String.data_append, List.append_assoc] at hdata
  apply intStr_inj
  apply String.ext
  exact List.append_cancel_left (List.append_cancel_left (List.append_cancel_left hdata))

/-- C7 witness: monotonicity and guid distinctness at concrete
values. -/
theorem c7_inactivity_monotone_witness :
    weeksSinceLastClaim 100 0 ≤ weeksSinceLastClaim 10000000 0 ∧
    inactivityGuid "12345" 5 ≠ inactivityGuid "12345" 6 :=
  ⟨(c7_inactivity_monotone_guid 0 4 100 10000000 5 6 "12345" (by decide)).1,
   (c7_inactivity_monotone_guid 0 4 100 10000000 5 6 "12345" (by decide)).2.2 (by decide)⟩

/-! ### Claim C8 -/

/-- C8: every successfully generated event feed lists the
event-description item first, then one claim item per input claim
record in input order (witnessed here by each claim item's guid being
the token URL of the record at the same index), then at most one
inactivity item last; with zero claims the document has exactly the one
description item. -/
theorem c8_event_feed_item_order (eventId : Nat) (dr : Except Unit EventDetails)
    (pr : Except Unit (List Poap)) (th : Int) (c : Nat → Int) (doc : FeedDoc)
    (h : generateEventFeed eventId dr pr th c = .ok doc) :
    ∃ (cs : List FeedItem) (inact : Option FeedItem),
      doc.items = (addEventDescriptionItem (eventDetailsOf eventId dr) c 1).1 ::
        (cs ++ inact.toList) ∧
      cs.length = (eventPoapsOf pr).length ∧
      (∀ i (hi : i < cs.length) (hp : i < (eventPoapsOf pr).length),
        (cs.get ⟨i, hi⟩).guid =
          "https://collectors.poap.xyz/token/" ++
            ((eventPoapsOf pr).get ⟨i, hp⟩).id.getD "unknown") ∧
      inact.toList.length ≤ 1 ∧
      (eventPoapsOf pr = [] →
        doc.items = [(addEventDescriptionItem (eventDetailsOf eventId dr) c 1).1]) := by
  obtain ⟨cs, k2, hb, hdoc⟩ := generateEventFeed_ok eventId dr pr th c doc h
  obtain ⟨hlen, hguid⟩ :=
    buildClaimItems_ok (eventDetailsOf eventId dr) (eventPoapsOf pr) c _ cs k2 hb
  refine ⟨cs, (checkInactivity (eventDetailsOf eventId dr) (eventPoapsOf pr) c k2 th).1,
    ?_, hlen, hguid, ?_, ?_⟩
  · rw [hdoc]
    rfl
  · cases (checkInactivity (eventDetailsOf eventId dr) (eventPoapsOf pr) c k2 th).1 <;> simp
  · intro hp0
    have hcs : cs = [] := List.length_eq_zero.mp (by rw [hlen, hp0]; rfl)
    subst hcs
    rw [hdoc, hp0]
    simp [checkInactivity]

/-- C8 witness: the concrete zero-claim document has exactly the
description item. -/
theorem c8_event_feed_item_order_witness :
    sampleDocNoClaims.items =
      [(addEventDescriptionItem (eventDetailsOf 7 (.ok emptyEventDetails))
        sampleClockZero 1).1] := by
  obtain ⟨cs, inact, h1, h2, h3, h4, h5⟩ :=
    c8_event_feed_item_order 7 (.ok emptyEventDetails) (.ok []) 4 sampleClockZero
      sampleDocNoClaims (by rfl)
  exact h5 rfl

/-! ### Claim C9 -/

/-- C9 counterexample: feed generation is not a function of the inputs
plus a single once-sampled "now": two clocks that agree on the first
sample but differ afterwards produce different documents (the
description-item fallback `pubDate` is drawn from a later sample than
`lastBuildDate`). -/
theorem c9_single_now_cex :
    clockA 0 = clockB 0 ∧
    (generateEventFeed 7 (.ok emptyEventDetails) (.ok []) 4 clockA).toOption.map
        (fun d => d.items.map FeedItem.pubDate) ≠
      (generateEventFeed 7 (.ok emptyEventDetails) (.ok []) 4 clockB).toOption.map
        (fun d => d.items.map FeedItem.pubDate) :=
  ⟨rfl, by decide⟩

/-- C9 (amended): each feed generation is a pure function of its inputs
plus the sequence of wall-clock samples it draws — one fresh sample per
`time.time()` / `datetime.now()` call, in pipeline order — rather than
of a single once-sampled instant. -/
theorem c9_pure_in_inputs_and_samples (eventId : Nat) (dr : Except Unit EventDetails)
    (pr : Except Unit (List Poap)) (th : Int) (c1 c2 : Nat → Int)
    (h : ∀ n, c1 n = c2 n) :
    generateEventFeed eventId dr pr th c1 = generateEventFeed eventId dr pr th c2 ∧
    ∀ (address : String) (ar : Except Unit (List AddrPoap)),
      generateAddressFeed address ar c1 = generateAddressFeed address ar c2 := by
  have hc : c1 = c2 := funext h
  subst hc
  exact ⟨rfl, fun _ _ => rfl⟩

/-- C9 witness: two pointwise-equal clocks generate the same
document. -/
theorem c9_pure_witness :
    generateEventFeed 7 (.ok emptyEventDetails) (.ok []) 4 clockA =
      generateEventFeed 7 (.ok emptyEventDetails) (.ok []) 4 (fun _ => 0) :=
  (c9_pure_in_inputs_and_samples 7 (.ok emptyEventDetails) (.ok []) 4 clockA
    (fun _ => 0) (fun _ => rfl)).1

/-! ### Claim C10 -/

/-- C10: the CDATA re-wrapping of `_format_xml` applies to every
`description` element, including the channel-level description, which
is plain metadata text and always non-empty, so it too is emitted as a
CDATA section. -/
theorem c10_channel_description_cdata (eventId : Nat) (dr : Except Unit EventDetails)
    (pr : Except Unit (List Poap)) (th : Int) (c : Nat → Int) (doc : FeedDoc)
    (h : generateEventFeed eventId dr pr th c = .ok doc) :
    (formatXmlDescription doc.channelDescription).isCData = true := by
  obtain ⟨cs, k2, _, hdoc⟩ := generateEventFeed_ok eventId dr pr th c doc h
  rw [hdoc]
  have hne : (("Activity for " ++ (eventDetailsOf eventId dr).name.getD "Unknown Event")
      ++ " POAP drop.").data ≠ [] :=
    append_data_ne_nil _ _ (append_data_ne_nil _ _ (by decide))
  simp [formatXmlDescription, hne]

/-- C10 witness: the channel description of the concrete generated
document is emitted as CDATA. -/
theorem c10_channel_description_cdata_witness :
    (formatXmlDescription sampleDocNoClaims.channelDescription).isCData = true :=
  c10_channel_description_cdata 7 (.ok emptyEventDetails) (.ok []) 4 sampleClockZero
    sampleDocNoClaims (by rfl)

end POAP2RSS
